import Mathlib

/-!
Verification of the MindWolf werewolf-game core against its specification.

The Rust sources are shallowly embedded:
* `f32` scores become `ℚ` (the code only adds, subtracts, multiplies by
  constants and clamps, all exact here);
* `HashMap`s become association lists or explicit functions; iteration
  order of a `HashMap` is unspecified in Rust, so operations that fold
  over one are either insensitive to the order (everything proved below)
  or take the order as a parameter;
* sources of randomness (`thread_rng`) are passed in as explicit
  parameters (a shuffle function, a random-index choice);
* `tokio` timers and log statements are omitted: they do not touch the
  game state fields mentioned by any property proved here.

Source files: `src-tauri/src/utils.rs`, `src-tauri/src/ai/reasoning.rs`,
`mindwolf/src-tauri/src/{types.rs, game_engine.rs, ai/strategy.rs}`.
-/

namespace MindWolf

/-- `RoleType` from types.rs. -/
inductive RoleType where
  | Werewolf | Villager | Seer | Witch | Hunter | Guard
deriving DecidableEq, Repr

/-- `Faction` from types.rs. -/
inductive Faction where
  | Werewolf | Villager
deriving DecidableEq, Repr

/-- `GamePhase` from types.rs. -/
inductive GamePhase where
  | Preparation | Night | DayDiscussion | Voting | LastWords | GameOver
deriving DecidableEq, Repr

/-- `Role` from types.rs. -/
structure Role where
  role_type : RoleType
  faction : Faction
  description : String
  can_vote : Bool
  has_night_action : Bool
deriving DecidableEq, Repr

/-- `PersonalityTraits` from types.rs (f32 traits as ℚ). -/
structure PersonalityTraits where
  aggressiveness : ℚ
  logic : ℚ
  deception : ℚ
  trustfulness : ℚ
deriving DecidableEq, Repr

/-- `AIPersonality` from types.rs. -/
structure AIPersonality where
  id : String
  name : String
  description : String
  traits : PersonalityTraits
deriving DecidableEq, Repr

/-- `Player` from types.rs. -/
structure Player where
  id : String
  name : String
  role : Role
  faction : Faction
  is_alive : Bool
  is_ai : Bool
  personality : Option AIPersonality
deriving DecidableEq, Repr

/-- `VoteRecord` from types.rs; the `chrono` timestamp is abstracted to ℕ. -/
structure VoteRecord where
  voter : String
  target : String
  timestamp : ℕ
deriving DecidableEq, Repr

/-- `GameConfig` from types.rs.  `total_players : u8` is a ℕ together with
mod-256 arithmetic at the one place the code can overflow;
`role_distribution : HashMap<RoleType, u8>` is an association list. -/
structure GameConfig where
  total_players : ℕ
  role_distribution : List (RoleType × ℕ)
  discussion_time : ℕ
  voting_time : ℕ
  enable_voice : Bool
deriving DecidableEq, Repr

/-- `GameState` from types.rs. -/
structure GameState where
  phase : GamePhase
  day : ℕ
  players : List Player
  dead_players : List Player
  votes : List VoteRecord
  game_config : GameConfig
  winner : Option Faction
  current_speaker : Option String
  time_remaining : Option ℕ
deriving DecidableEq, Repr

/-- `AppError` from error.rs (variants that carry non-string payloads in
Rust all carry the rendered message string, as in the source). -/
inductive AppError where
  | Io (msg : String)
  | Serialization (msg : String)
  | Network (msg : String)
  | LlmApi (msg : String)
  | Database (msg : String)
  | GameLogic (msg : String)
  | Config (msg : String)
  | Unknown (msg : String)
  | NotFound (msg : String)
deriving DecidableEq, Repr

/-- `AppResult<T>` from error.rs. -/
abbrev AppResult (α : Type) := Except AppError α

/-- `utils::check_win_condition`. -/
def check_win_condition (alive_werewolves alive_villagers : ℕ) : Option Faction :=
  if alive_werewolves = 0 then
    some Faction.Villager
  else if alive_werewolves ≥ alive_villagers then
    some Faction.Werewolf
  else
    none

/-- `utils::generate_role_distribution`.  The default branch computes
`total_players - 2` on a `u8`; release-mode Rust wraps, modelled by
`(total_players + 254) % 256` (equal to `total_players - 2` for
`2 ≤ total_players ≤ 255`; in a debug build the same expression panics
for `total_players < 2`). -/
def generate_role_distribution (total_players : ℕ) : List (RoleType × ℕ) :=
  if total_players = 6 then
    [(RoleType.Werewolf, 2), (RoleType.Villager, 2), (RoleType.Seer, 1), (RoleType.Witch, 1)]
  else if total_players = 8 then
    [(RoleType.Werewolf, 3), (RoleType.Villager, 3), (RoleType.Seer, 1), (RoleType.Witch, 1)]
  else if total_players = 10 then
    [(RoleType.Werewolf, 3), (RoleType.Villager, 4), (RoleType.Seer, 1), (RoleType.Witch, 1),
     (RoleType.Hunter, 1)]
  else if total_players = 12 then
    [(RoleType.Werewolf, 4), (RoleType.Villager, 4), (RoleType.Seer, 1), (RoleType.Witch, 1),
     (RoleType.Hunter, 1), (RoleType.Guard, 1)]
  else
    [(RoleType.Werewolf, 2), (RoleType.Villager, (total_players + 254) % 256)]

/-- `utils::get_role_description`. -/
def get_role_description (role_type : RoleType) : String :=
  match role_type with
  | RoleType.Werewolf => "狼人：夜晚可以杀死一名玩家，目标是消灭所有好人"
  | RoleType.Villager => "村民：普通村民，没有特殊技能，依靠投票和推理找出狼人"
  | RoleType.Seer => "预言家：每晚可以查验一名玩家的身份"
  | RoleType.Witch => "女巫：拥有一瓶解药和一瓶毒药，可以救人或杀人"
  | RoleType.Hunter => "猎人：被投票出局或被狼人杀死时，可以带走一名玩家"
  | RoleType.Guard => "守卫：每晚可以保护一名玩家，使其免受狼人攻击"

/-- `GameEngine` from game_engine.rs.  `players_map : HashMap<String, usize>`
is modelled as a lookup function; the `tokio` timer handle is omitted
(it is read only by `update_timer`, which no property below touches). -/
structure GameEngine where
  state : GameState
  players_map : String → Option ℕ

/-- `GameEngine::new`. -/
def GameEngine.new (config : GameConfig) : AppResult GameEngine :=
  Except.ok
    { state :=
        { phase := GamePhase.Preparation
          day := 0
          players := []
          dead_players := []
          votes := []
          game_config := config
          winner := none
          current_speaker := none
          time_remaining := none }
      players_map := fun _ => none }

/-- `GameEngine::create_role`. -/
def create_role (role_type : RoleType) : Role :=
  let faction := match role_type with
    | RoleType.Werewolf => Faction.Werewolf
    | _ => Faction.Villager
  let flags : Bool × Bool := match role_type with
    | RoleType.Werewolf => (true, true)
    | RoleType.Villager => (true, false)
    | RoleType.Seer => (true, true)
    | RoleType.Witch => (true, true)
    | RoleType.Hunter => (true, false)
    | RoleType.Guard => (true, true)
  { role_type := role_type
    faction := faction
    description := get_role_description role_type
    can_vote := flags.1
    has_night_action := flags.2 }

/-- The role-deck loop of `initialize_game`: for each `(role_type, count)`
pair of the distribution, push `count` copies of `create_role role_type`. -/
def build_roles (dist : List (RoleType × ℕ)) : List Role :=
  dist.foldl (fun acc rc => acc ++ List.replicate rc.2 (create_role rc.1)) []

/-- One AI player of `initialize_game` (`i` is the 0-based loop index; the
random display name and personality are supplied by the callers `names`
and `pers`). -/
def mk_ai_player (names : ℕ → String) (pers : ℕ → AIPersonality) (i : ℕ) (r : Role) : Player :=
  { id := "ai_" ++ toString (i + 1)
    name := names i
    role := r
    faction := r.faction
    is_alive := true
    is_ai := true
    personality := some (pers i) }

/-- The AI-player loop of `initialize_game` (`for (i, role) in roles.into_iter().enumerate()`). -/
def mk_ai_players (names : ℕ → String) (pers : ℕ → AIPersonality) : ℕ → List Role → List Player
  | _, [] => []
  | i, r :: rs => mk_ai_player names pers i r :: mk_ai_players names pers (i + 1) rs

/-- The player-construction section of `initialize_game`: `roles.pop()`
hands the last role to the human player (whose faction, first set to
`Villager`, is afterwards overwritten with `role.faction`), and the
remaining roles are dealt to AI players in order. -/
def initialize_players (roles : List Role) (names : ℕ → String)
    (pers : ℕ → AIPersonality) : List Player :=
  match roles.getLast? with
  | none => []
  | some r =>
      { id := "human_player"
        name := "玩家"
        role := r
        faction := r.faction
        is_alive := true
        is_ai := false
        personality := none } :: mk_ai_players names pers 0 roles.dropLast

/-- The `players_map` construction of `initialize_game`: insert
`player.id ↦ index` for every player (later inserts overwrite earlier). -/
def build_map (players : List Player) : String → Option ℕ :=
  players.enum.foldl (fun m p => fun k => if k = p.2.id then some p.1 else m k)
    (fun _ => none)

/-- `GameEngine::initialize_game`.  The Fisher–Yates shuffle is passed in
as `shuffle` (theorems only assume it permutes its input), and the
random AI names/personalities as `names`/`pers`. -/
def initialize_game (shuffle : List Role → List Role) (names : ℕ → String)
    (pers : ℕ → AIPersonality) (e : GameEngine) : AppResult GameEngine :=
  let dist := generate_role_distribution e.state.game_config.total_players
  let roles := shuffle (build_roles dist)
  let players := initialize_players roles names pers
  Except.ok
    { state :=
        { e.state with
          game_config := { e.state.game_config with role_distribution := dist }
          players := players }
      players_map := build_map players }

/-- `GameEngine::start_phase_timer`. -/
def start_phase_timer (e : GameEngine) : GameEngine :=
  let duration := match e.state.phase with
    | GamePhase.DayDiscussion => e.state.game_config.discussion_time
    | GamePhase.Voting => e.state.game_config.voting_time
    | _ => 0
  if duration > 0 then
    { e with state := { e.state with time_remaining := some duration } }
  else
    e

/-- `GameEngine::start_game`. -/
def start_game (e : GameEngine) : AppResult GameEngine :=
  if e.state.players.isEmpty then
    Except.error (AppError.GameLogic "没有玩家，无法开始游戏")
  else
    Except.ok (start_phase_timer
      { e with state := { e.state with phase := GamePhase.Night, day := 1 } })

/-- `GameEngine::is_player_alive`. -/
def is_player_alive (e : GameEngine) (player_id : String) : Bool :=
  e.state.players.any (fun p => p.id = player_id && p.is_alive)

/-- `GameEngine::eliminate_player`.  (In the source it returns
`AppResult<()>` but every path is `Ok`.) -/
def eliminate_player (e : GameEngine) (player_id : String) : GameEngine :=
  match e.players_map player_id with
  | none => e
  | some index =>
      match e.state.players.get? index with
      | none => e
      | some p =>
          let dead := { p with is_alive := false }
          { state :=
              { e.state with
                players := e.state.players.eraseIdx index
                dead_players := e.state.dead_players ++ [dead] }
            players_map := fun k =>
              if k = player_id then none
              else (e.players_map k).map (fun idx => if index < idx then idx - 1 else idx) }

/-- The vote tally of `process_votes` (`HashMap<String, u32>` keyed by
target; association list in first-occurrence order, which stands in for
the unspecified hash iteration order). -/
def tally_votes (votes : List VoteRecord) : List (String × ℕ) :=
  votes.foldl
    (fun counts v =>
      if counts.any (fun c => c.1 = v.target) then
        counts.map (fun c => if c.1 = v.target then (c.1, c.2 + 1) else c)
      else
        counts ++ [(v.target, 1)])
    []

/-- Rust `Iterator::max_by_key`: the last maximal element of the
iteration, `none` on an empty iterator. -/
def max_by_key_last (l : List (String × ℕ)) : Option (String × ℕ) :=
  match l with
  | [] => none
  | x :: xs => some (xs.foldl (fun best c => if best.2 ≤ c.2 then c else best) x)

/-- `GameEngine::process_votes`: eliminate the top-voted player (if any
vote exists), then clear the vote set. -/
def process_votes (e : GameEngine) : GameEngine :=
  let e1 := match max_by_key_last (tally_votes e.state.votes) with
    | some top => eliminate_player e top.1
    | none => e
  { e1 with state := { e1.state with votes := [] } }

/-- The `alive_werewolves` count of `GameEngine::check_game_end`. -/
def alive_werewolves (e : GameEngine) : ℕ :=
  (e.state.players.filter (fun p => p.is_alive && p.faction = Faction.Werewolf)).length

/-- The `alive_villagers` count of `GameEngine::check_game_end`. -/
def alive_villagers (e : GameEngine) : ℕ :=
  (e.state.players.filter (fun p => p.is_alive && p.faction = Faction.Villager)).length

/-- `GameEngine::check_game_end`: count live players per faction, ask
`check_win_condition`; on a winner, set `winner` and `GameOver`. -/
def check_game_end (e : GameEngine) : GameEngine × Bool :=
  match check_win_condition (alive_werewolves e) (alive_villagers e) with
  | some winner =>
      ({ e with state := { e.state with winner := some winner, phase := GamePhase.GameOver } },
       true)
  | none => (e, false)

/-- `GameEngine::next_phase`. -/
def next_phase (e : GameEngine) : AppResult GameEngine :=
  match e.state.phase with
  | GamePhase.Preparation => start_game e
  | GamePhase.Night =>
      Except.ok (start_phase_timer
        { e with state := { e.state with phase := GamePhase.DayDiscussion } })
  | GamePhase.DayDiscussion =>
      Except.ok (start_phase_timer
        { e with state := { e.state with phase := GamePhase.Voting } })
  | GamePhase.Voting =>
      let e1 := process_votes e
      let r := check_game_end e1
      if r.2 then
        Except.ok { r.1 with state := { r.1.state with phase := GamePhase.GameOver } }
      else
        Except.ok
          { r.1 with
            state := { r.1.state with phase := GamePhase.Night, day := r.1.state.day + 1 } }
  | GamePhase.LastWords =>
      Except.ok { e with state := { e.state with phase := GamePhase.Night, day := e.state.day + 1 } }
  | GamePhase.GameOver => Except.ok e

/-- `GameEngine::vote` (the `chrono::Utc::now()` timestamp is the
parameter `now`). -/
def vote (e : GameEngine) (voter_id target_id : String) (now : ℕ) : AppResult GameEngine :=
  if e.state.phase ≠ GamePhase.Voting then
    Except.error (AppError.GameLogic "当前不是投票阶段")
  else if ¬ is_player_alive e voter_id then
    Except.error (AppError.GameLogic "投票者不存在或已死亡")
  else if ¬ is_player_alive e target_id then
    Except.error (AppError.GameLogic "投票目标不存在或已死亡")
  else
    let kept := e.state.votes.filter (fun v => v.voter ≠ voter_id)
    Except.ok
      { e with state :=
          { e.state with
            votes := kept ++ [{ voter := voter_id, target := target_id, timestamp := now }] } }

/-- `EvidenceType` from ai/reasoning.rs. -/
inductive EvidenceType where
  | VotingPattern | SpeechAnalysis | NightResult | RoleClaimConsistency
  | DefensiveBehavior | AggressiveBehavior | LogicalInconsistency | TeamworkIndicator
deriving DecidableEq, Repr

/-- `Evidence` from ai/reasoning.rs. -/
structure Evidence where
  evidence_type : EvidenceType
  confidence : ℚ
  source : String
  description : String
  weight : ℚ
deriving DecidableEq, Repr

/-- `BayesianNode` from ai/reasoning.rs (the `role_probabilities` HashMap
as an association list). -/
structure BayesianNode where
  player_id : String
  role_probabilities : List (RoleType × ℚ)
  faction_probability : ℚ
  trust_score : ℚ
  suspicion_score : ℚ
  evidence : List Evidence
deriving DecidableEq, Repr

/-- `ReasoningEngine` from ai/reasoning.rs: the `nodes` HashMap as a list
of nodes (each node carries its key as `player_id`).  The `game_state`
snapshot and the `reasoning_rules` table are omitted: they are read only
by `apply_reasoning_rules`, which no property below exercises. -/
structure ReasoningEngine where
  nodes : List BayesianNode
deriving DecidableEq, Repr

/-- The per-player node built by `ReasoningEngine::initialize`:
role probabilities are `count / total_players` per distribution entry,
`faction_probability` is the Werewolf entry (0.0 if absent), and trust
and suspicion start at 0.5. -/
def initialize_node (game_state : GameState) (p : Player) : BayesianNode :=
  let total : ℚ := game_state.players.length
  let role_probabilities := game_state.game_config.role_distribution.map
    (fun rc => (rc.1, (rc.2 : ℚ) / total))
  let faction_probability := match role_probabilities.lookup RoleType.Werewolf with
    | some q => q
    | none => 0
  { player_id := p.id
    role_probabilities := role_probabilities
    faction_probability := faction_probability
    trust_score := 0.5
    suspicion_score := 0.5
    evidence := [] }

/-- `ReasoningEngine::initialize`: one node per player of the snapshot. -/
def initialize_reasoning (game_state : GameState) : ReasoningEngine :=
  { nodes := game_state.players.map (initialize_node game_state) }

/-- Rust `f32::clamp(0.0, 1.0)`. -/
def clamp01 (x : ℚ) : ℚ :=
  if x < 0 then 0 else if x > 1 then 1 else x

/-- The body of `ReasoningEngine::update_probabilities` acting on the
looked-up node: the per-evidence-type score deltas followed by the
unconditional clamp of all three scalars. -/
def update_probabilities_node (node : BayesianNode) (evidence : Evidence) : BayesianNode :=
  let node := match evidence.evidence_type with
    | EvidenceType.SpeechAnalysis =>
        if evidence.confidence > 0.7 then
          { node with
            suspicion_score := node.suspicion_score + evidence.weight * 0.2
            trust_score := node.trust_score - evidence.weight * 0.1 }
        else node
    | EvidenceType.VotingPattern =>
        { node with faction_probability := node.faction_probability + evidence.weight * 0.15 }
    | EvidenceType.DefensiveBehavior =>
        { node with suspicion_score := node.suspicion_score + evidence.weight * 0.25 }
    | EvidenceType.LogicalInconsistency =>
        { node with
          faction_probability := node.faction_probability + evidence.weight * 0.3
          suspicion_score := node.suspicion_score + evidence.weight * 0.4 }
    | _ =>
        { node with suspicion_score := node.suspicion_score + evidence.weight * 0.1 }
  { node with
    suspicion_score := clamp01 node.suspicion_score
    trust_score := clamp01 node.trust_score
    faction_probability := clamp01 node.faction_probability }

/-- `ReasoningEngine::add_evidence`: if the player has a node, append the
evidence to its log and run `update_probabilities`; otherwise no-op
(the source returns `Ok(())` either way). -/
def add_evidence (re : ReasoningEngine) (player_id : String) (evidence : Evidence) :
    ReasoningEngine :=
  { nodes := re.nodes.map (fun n =>
      if n.player_id = player_id then
        update_probabilities_node { n with evidence := n.evidence ++ [evidence] } evidence
      else n) }

/-- Rust `Iterator::max_by` over the node iteration (last maximal element
wins), keyed by `score`; `none` on an empty map. -/
def max_node_by (score : BayesianNode → ℚ) (nodes : List BayesianNode) :
    Option BayesianNode :=
  match nodes with
  | [] => none
  | n :: ns => some (ns.foldl (fun best x => if score best ≤ score x then x else best) n)

/-- `ReasoningEngine::get_most_suspicious_player`. -/
def get_most_suspicious_player (re : ReasoningEngine) : Option String :=
  (max_node_by (fun n => n.suspicion_score) re.nodes).map (fun n => n.player_id)

/-- `ReasoningEngine::get_most_trusted_player`. -/
def get_most_trusted_player (re : ReasoningEngine) : Option String :=
  (max_node_by (fun n => n.trust_score) re.nodes).map (fun n => n.player_id)

/-- `ReasoningEngine::get_werewolf_probability`. -/
def get_werewolf_probability (re : ReasoningEngine) (player_id : String) : ℚ :=
  match re.nodes.find? (fun n => n.player_id = player_id) with
  | some n => n.faction_probability
  | none => 0.5

/-- `StrategyType` from ai/strategy.rs. -/
inductive StrategyType where
  | Aggressive | Defensive | Neutral | Deceptive | Logical | Chaotic
deriving DecidableEq, Repr

/-- `SpeechStyle` from ai/strategy.rs. -/
inductive SpeechStyle where
  | Concise | Detailed | Emotional | Analytical | Casual
deriving DecidableEq, Repr

/-- `VotingStrategy` from ai/strategy.rs. -/
inductive VotingStrategy where
  | FollowMajority | Independent | Protective | Aggressive | Random
deriving DecidableEq, Repr

/-- `Strategy` from ai/strategy.rs (`deception_level : f32` as ℚ). -/
structure Strategy where
  strategy_type : StrategyType
  priority_targets : List String
  avoid_targets : List String
  speech_style : SpeechStyle
  voting_strategy : VotingStrategy
  deception_level : ℚ
deriving DecidableEq, Repr

/-- `StrategyEngine` from ai/strategy.rs.  The `game_knowledge` field is
omitted: it is initialized empty and never read by any operation
modelled here. -/
structure StrategyEngine where
  personality : AIPersonality
  current_strategy : Strategy
deriving DecidableEq, Repr

/-- `StrategyEngine::select_random_target`: `None` on an empty slice,
otherwise the element at the rng-chosen index (the rng draw is the
parameter `k`, reduced mod the length as `gen_range(0..len)` yields a
value in that range). -/
def select_random_target (players : List Player) (k : ℕ) : Option String :=
  if players.isEmpty then none
  else (players.get? (k % players.length)).map (fun p => p.id)

/-- The `alive_players` filter of `StrategyEngine::decide_vote_target`:
living players other than the agent itself. -/
def alive_others (game_state : GameState) : List Player :=
  game_state.players.filter (fun p => p.is_alive && p.id ≠ "self")

/-- `StrategyEngine::decide_vote_target` (rng draw for the random
branches passed as `k`). -/
def decide_vote_target (se : StrategyEngine) (game_state : GameState)
    (reasoning : ReasoningEngine) (k : ℕ) : AppResult (Option String) :=
  let alive_players := alive_others game_state
  if alive_players.isEmpty then
    Except.ok none
  else
    match se.current_strategy.voting_strategy with
    | VotingStrategy.Aggressive => Except.ok (get_most_suspicious_player reasoning)
    | VotingStrategy.Independent => Except.ok (get_most_suspicious_player reasoning)
    | VotingStrategy.FollowMajority => Except.ok (select_random_target alive_players k)
    | VotingStrategy.Protective =>
        let trusted := get_most_trusted_player reasoning
        let suspicious := get_most_suspicious_player reasoning
        match suspicious with
        | some suspicious_id =>
            if some suspicious_id ≠ trusted then
              Except.ok (some suspicious_id)
            else
              Except.ok (select_random_target alive_players k)
        | none => Except.ok (select_random_target alive_players k)
    | VotingStrategy.Random => Except.ok (select_random_target alive_players k)

/-- `StrategyEngine::update_strategy`. -/
def update_strategy (se : StrategyEngine) (game_state : GameState)
    (reasoning : ReasoningEngine) : StrategyEngine :=
  let s := se.current_strategy
  let s :=
    if game_state.day > 3 then
      { s with
        deception_level := s.deception_level + 0.1
        strategy_type :=
          if s.strategy_type = StrategyType.Defensive then StrategyType.Aggressive
          else s.strategy_type }
    else s
  let s :=
    { s with
      priority_targets := [(get_most_suspicious_player reasoning).getD ""]
      avoid_targets := [(get_most_trusted_player reasoning).getD ""] }
  { se with current_strategy := s }

/-! ## Sample data for witnesses -/

/-- A living AI player with the given id and role, for concrete tests. -/
def sample_player (pid : String) (rt : RoleType) : Player :=
  { id := pid
    name := pid
    role := create_role rt
    faction := (create_role rt).faction
    is_alive := true
    is_ai := true
    personality := none }

/-- A concrete game state around the given roster, for concrete tests. -/
def sample_state (phase : GamePhase) (players : List Player) (votes : List VoteRecord) :
    GameState :=
  { phase := phase
    day := 1
    players := players
    dead_players := []
    votes := votes
    game_config :=
      { total_players := players.length
        role_distribution := []
        discussion_time := 0
        voting_time := 0
        enable_voice := false }
    winner := none
    current_speaker := none
    time_remaining := none }

/-- Projects the engine out of a successful `AppResult`, for concrete tests. -/
def ok_result (r : AppResult GameEngine) (dflt : GameEngine) : GameEngine :=
  match r with
  | Except.ok g => g
  | Except.error _ => dflt

/-- Whether an `AppResult` is `Ok`. -/
def is_ok {α : Type} (r : AppResult α) : Bool :=
  match r with
  | Except.ok _ => true
  | Except.error _ => false

/-- Whether an `AppResult` is an `AppError::GameLogic` error. -/
def is_game_logic_error {α : Type} (r : AppResult α) : Bool :=
  match r with
  | Except.error (AppError.GameLogic _) => true
  | _ => false

/-! ## Theorems -/

/-- Reducing `next_phase` on a state in the `Voting` phase to its arm. -/
theorem next_phase_voting_eq (e : GameEngine) (h : e.state.phase = GamePhase.Voting) :
    next_phase e =
      (if (check_game_end (process_votes e)).2 then
        Except.ok { (check_game_end (process_votes e)).1 with
          state := { (check_game_end (process_votes e)).1.state with
            phase := GamePhase.GameOver } }
      else
        Except.ok { (check_game_end (process_votes e)).1 with
          state := { (check_game_end (process_votes e)).1.state with
            phase := GamePhase.Night,
            day := (check_game_end (process_votes e)).1.state.day + 1 } }) := by
  unfold next_phase
  rw [h]

/-- C1: `check_win_condition` yields a Villager win exactly when no
werewolf is alive, a Werewolf win exactly when werewolves are alive and
at least as many as villagers, and no winner otherwise; and `next_phase`
from `Voting` sets the winner and moves to `GameOver` exactly when this
rule yields a winner for the live roster after vote resolution
(otherwise the game returns to `Night` with the winner unset and the day
incremented). -/
theorem check_win_rule_and_voting_transition :
    (∀ w v : ℕ,
      (check_win_condition w v = some Faction.Villager ↔ w = 0) ∧
      (check_win_condition w v = some Faction.Werewolf ↔ 0 < w ∧ v ≤ w) ∧
      (check_win_condition w v = none ↔ 0 < w ∧ w < v)) ∧
    (∀ e : GameEngine, e.state.phase = GamePhase.Voting →
      (∀ w, check_win_condition (alive_werewolves (process_votes e))
          (alive_villagers (process_votes e)) = some w →
        next_phase e = Except.ok
          { process_votes e with state := { (process_votes e).state with
              winner := some w, phase := GamePhase.GameOver } }) ∧
      (check_win_condition (alive_werewolves (process_votes e))
          (alive_villagers (process_votes e)) = none →
        next_phase e = Except.ok
          { process_votes e with state := { (process_votes e).state with
              phase := GamePhase.Night,
              day := (process_votes e).state.day + 1 } })) := by
  constructor
  · intro w v
    unfold check_win_condition
    refine ⟨?_, ?_, ?_⟩ <;> split_ifs <;> simp_all <;> omega
  · intro e hphase
    rcases hw : check_win_condition (alive_werewolves (process_votes e))
        (alive_villagers (process_votes e)) with _ | w
    · have hce : check_game_end (process_votes e) = (process_votes e, false) := by
        unfold check_game_end
        rw [hw]
      refine ⟨?_, ?_⟩
      · intro w hww
        cases hww
      · intro _
        rw [next_phase_voting_eq e hphase, hce]
        rfl
    · have hce : check_game_end (process_votes e) =
          ({ process_votes e with state := { (process_votes e).state with
              winner := some w, phase := GamePhase.GameOver } }, true) := by
        unfold check_game_end
        rw [hw]
      refine ⟨?_, ?_⟩
      · intro w' hww
        injection hww with hww
        subst hww
        rw [next_phase_voting_eq e hphase, hce]
        rfl
      · intro hnone
        cases hnone

/-- A concrete engine in the `Voting` phase with two live werewolves and
two live villagers (a Werewolf parity win). -/
def c1_engine : GameEngine :=
  { state := sample_state GamePhase.Voting
      [sample_player "w1" RoleType.Werewolf, sample_player "w2" RoleType.Werewolf,
       sample_player "v1" RoleType.Villager, sample_player "v2" RoleType.Villager] []
    players_map := fun _ => none }

/-- Witness for `check_win_rule_and_voting_transition` at a concrete
Voting-phase engine where werewolves reach parity. -/
theorem check_win_rule_and_voting_transition_witness :
    check_win_condition (alive_werewolves (process_votes c1_engine))
      (alive_villagers (process_votes c1_engine)) = some Faction.Werewolf ∧
    next_phase c1_engine = Except.ok
      { process_votes c1_engine with state := { (process_votes c1_engine).state with
          winner := some Faction.Werewolf, phase := GamePhase.GameOver } } :=
  ⟨by decide, (check_win_rule_and_voting_transition.2 c1_engine rfl).1 Faction.Werewolf
    (by decide)⟩

/-- Filtering for a voter after removing that voter's votes and appending
one fresh record yields exactly that record. -/
theorem filter_voter_after_replace (l : List VoteRecord) (vid : String) (r : VoteRecord)
    (hr : r.voter = vid) :
    ((l.filter (fun v => v.voter ≠ vid)) ++ [r]).filter (fun v => v.voter = vid) = [r] := by
  rw [List.filter_append]
  have h0 : (l.filter (fun v => v.voter ≠ vid)).filter (fun v => v.voter = vid) = [] := by
    refine List.filter_eq_nil_iff.mpr ?_
    intro a ha
    have := List.of_mem_filter ha
    simp at this ⊢
    exact this
  rw [h0]
  simp [hr]

/-- C2: `vote` succeeds exactly when the phase is `Voting` and both voter
and target are alive in the live roster; on success the voter's prior
pending votes are replaced so that exactly one pending vote of that
voter remains and everything else in the state is unchanged; otherwise
it returns a game-logic error (leaving the state untouched). -/
theorem vote_validates_and_replaces (e : GameEngine) (voter_id target_id : String) (now : ℕ) :
    (is_ok (vote e voter_id target_id now) = true ↔
      (e.state.phase = GamePhase.Voting ∧ is_player_alive e voter_id = true ∧
        is_player_alive e target_id = true)) ∧
    (∀ e2, vote e voter_id target_id now = Except.ok e2 →
      e2.state.votes = e.state.votes.filter (fun v => v.voter ≠ voter_id) ++
        [{ voter := voter_id, target := target_id, timestamp := now }] ∧
      (e2.state.votes.filter (fun v => v.voter = voter_id)).length = 1 ∧
      e2.state.players = e.state.players ∧
      e2.state.dead_players = e.state.dead_players ∧
      e2.state.phase = e.state.phase ∧
      e2.state.winner = e.state.winner ∧
      e2.state.day = e.state.day ∧
      e2.players_map = e.players_map) ∧
    (¬ (e.state.phase = GamePhase.Voting ∧ is_player_alive e voter_id = true ∧
        is_player_alive e target_id = true) →
      is_game_logic_error (vote e voter_id target_id now) = true) := by
  by_cases h1 : e.state.phase = GamePhase.Voting
  · by_cases h2 : is_player_alive e voter_id = true
    · by_cases h3 : is_player_alive e target_id = true
      · have hv : vote e voter_id target_id now = Except.ok
            { e with state := { e.state with
                votes := e.state.votes.filter (fun v => v.voter ≠ voter_id) ++
                  [{ voter := voter_id, target := target_id, timestamp := now }] } } := by
          unfold vote
          rw [if_neg (not_not_intro h1), if_neg (not_not_intro h2), if_neg (not_not_intro h3)]
        refine ⟨?_, ?_, ?_⟩
        · rw [hv]
          exact iff_of_true rfl ⟨h1, h2, h3⟩
        · intro e2 he2
          rw [hv] at he2
          injection he2 with he2
          subst he2
          refine ⟨rfl, ?_, rfl, rfl, rfl, rfl, rfl, rfl⟩
          rw [filter_voter_after_replace e.state.votes voter_id _ rfl]
          rfl
        · intro hc
          exact absurd ⟨h1, h2, h3⟩ hc
      · have hv : vote e voter_id target_id now =
            Except.error (AppError.GameLogic "投票目标不存在或已死亡") := by
          unfold vote
          rw [if_neg (not_not_intro h1), if_neg (not_not_intro h2), if_pos h3]
        refine ⟨?_, ?_, ?_⟩
        · rw [hv]
          refine iff_of_false (by simp [is_ok]) ?_
          rintro ⟨_, _, hh⟩
          exact absurd hh h3
        · intro e2 he2
          rw [hv] at he2
          cases he2
        · intro _
          rw [hv]
          rfl
    · have hv : vote e voter_id target_id now =
          Except.error (AppError.GameLogic "投票者不存在或已死亡") := by
        unfold vote
        rw [if_neg (not_not_intro h1), if_pos h2]
      refine ⟨?_, ?_, ?_⟩
      · rw [hv]
        refine iff_of_false (by simp [is_ok]) ?_
        rintro ⟨_, hh, _⟩
        exact absurd hh h2
      · intro e2 he2
        rw [hv] at he2
        cases he2
      · intro _
        rw [hv]
        rfl
  · have hv : vote e voter_id target_id now =
        Except.error (AppError.GameLogic "当前不是投票阶段") := by
      unfold vote
      rw [if_pos h1]
    refine ⟨?_, ?_, ?_⟩
    · rw [hv]
      refine iff_of_false (by simp [is_ok]) ?_
      rintro ⟨hh, _, _⟩
      exact absurd hh h1
    · intro e2 he2
      rw [hv] at he2
      cases he2
    · intro _
      rw [hv]
      rfl

/-- A concrete engine in the `Voting` phase with three live players, one
pending vote by voter `a`, for the `vote` witness. -/
def c2_engine : GameEngine :=
  { state := sample_state GamePhase.Voting
      [sample_player "a" RoleType.Villager, sample_player "b" RoleType.Villager,
       sample_player "c" RoleType.Werewolf]
      [{ voter := "a", target := "c", timestamp := 0 },
       { voter := "b", target := "a", timestamp := 0 }]
    players_map := fun _ => none }

/-- The same roster during `Night`, where voting is illegal. -/
def c2_engine_night : GameEngine :=
  { c2_engine with state := { c2_engine.state with phase := GamePhase.Night } }

/-- Witness for `vote_validates_and_replaces`: a re-vote by `a` succeeds
and replaces the prior pending vote; the same call during `Night` is a
game-logic error. -/
theorem vote_validates_and_replaces_witness :
    is_ok (vote c2_engine "a" "b" 5) = true ∧
    ((ok_result (vote c2_engine "a" "b" 5) c2_engine).state.votes =
        c2_engine.state.votes.filter (fun v => v.voter ≠ "a") ++
          [{ voter := "a", target := "b", timestamp := 5 }] ∧
      ((ok_result (vote c2_engine "a" "b" 5) c2_engine).state.votes.filter
          (fun v => v.voter = "a")).length = 1 ∧
      (ok_result (vote c2_engine "a" "b" 5) c2_engine).state.players =
        c2_engine.state.players ∧
      (ok_result (vote c2_engine "a" "b" 5) c2_engine).state.dead_players =
        c2_engine.state.dead_players ∧
      (ok_result (vote c2_engine "a" "b" 5) c2_engine).state.phase =
        c2_engine.state.phase ∧
      (ok_result (vote c2_engine "a" "b" 5) c2_engine).state.winner =
        c2_engine.state.winner ∧
      (ok_result (vote c2_engine "a" "b" 5) c2_engine).state.day = c2_engine.state.day ∧
      (ok_result (vote c2_engine "a" "b" 5) c2_engine).players_map =
        c2_engine.players_map) ∧
    is_game_logic_error (vote c2_engine_night "a" "b" 5) = true :=
  ⟨(vote_validates_and_replaces c2_engine "a" "b" 5).1.mpr ⟨rfl, by decide, by decide⟩,
   (vote_validates_and_replaces c2_engine "a" "b" 5).2.1
     (ok_result (vote c2_engine "a" "b" 5) c2_engine) rfl,
   (vote_validates_and_replaces c2_engine_night "a" "b" 5).2.2 (by
     intro hc
     exact absurd hc.1 (by decide))⟩

/-- With an empty pending-vote set, `process_votes` is the identity. -/
theorem process_votes_empty (e : GameEngine) (hv : e.state.votes = []) :
    process_votes e = e := by
  unfold process_votes
  rw [hv]
  obtain ⟨⟨ph, d, ps, dps, vs, cfg, w, cs, tr⟩, pm⟩ := e
  simp only at hv
  subst hv
  rfl

/-- C9: calling `next_phase` in the `Voting` phase with no pending votes
eliminates nobody — live and dead rosters are unchanged — while the
phase still advances (to `Night` or `GameOver`); absent a winner the day
increments and the vote set stays empty. -/
theorem voting_no_votes_frame (e : GameEngine)
    (hphase : e.state.phase = GamePhase.Voting) (hv : e.state.votes = []) :
    is_ok (next_phase e) = true ∧
    ∀ e2, next_phase e = Except.ok e2 →
      e2.state.players = e.state.players ∧
      e2.state.dead_players = e.state.dead_players ∧
      (e2.state.phase = GamePhase.GameOver ∨ e2.state.phase = GamePhase.Night) ∧
      (check_win_condition (alive_werewolves e) (alive_villagers e) = none →
        e2.state.phase = GamePhase.Night ∧ e2.state.winner = e.state.winner ∧
        e2.state.day = e.state.day + 1 ∧ e2.state.votes = []) := by
  have hpv : process_votes e = e := process_votes_empty e hv
  rcases hw : check_win_condition (alive_werewolves e) (alive_villagers e) with _ | w
  · have hce : check_game_end e = (e, false) := by
      unfold check_game_end
      rw [hw]
    have heq : next_phase e = Except.ok
        { e with state := { e.state with
            phase := GamePhase.Night, day := e.state.day + 1 } } := by
      rw [next_phase_voting_eq e hphase, hpv, hce]
      rfl
    refine ⟨by rw [heq]; rfl, ?_⟩
    intro e2 he2
    rw [heq] at he2
    injection he2 with he2
    subst he2
    exact ⟨rfl, rfl, Or.inr rfl, fun _ => ⟨rfl, rfl, rfl, hv⟩⟩
  · have hce : check_game_end e =
        ({ e with state := { e.state with
            winner := some w, phase := GamePhase.GameOver } }, true) := by
      unfold check_game_end
      rw [hw]
    have heq : next_phase e = Except.ok
        { e with state := { e.state with
            winner := some w, phase := GamePhase.GameOver } } := by
      rw [next_phase_voting_eq e hphase, hpv, hce]
      rfl
    refine ⟨by rw [heq]; rfl, ?_⟩
    intro e2 he2
    rw [heq] at he2
    injection he2 with he2
    subst he2
    refine ⟨rfl, rfl, Or.inl rfl, ?_⟩
    intro hnone
    cases hnone

/-- A concrete engine in the `Voting` phase with one live werewolf, two
live villagers and no pending votes. -/
def c9_engine : GameEngine :=
  { state := sample_state GamePhase.Voting
      [sample_player "w1" RoleType.Werewolf, sample_player "v1" RoleType.Villager,
       sample_player "v2" RoleType.Villager] []
    players_map := fun _ => none }

/-- Witness for `voting_no_votes_frame` at a concrete engine where the
game continues (one wolf, two villagers). -/
theorem voting_no_votes_frame_witness :
    is_ok (next_phase c9_engine) = true ∧
    ((ok_result (next_phase c9_engine) c9_engine).state.players = c9_engine.state.players ∧
      (ok_result (next_phase c9_engine) c9_engine).state.dead_players =
        c9_engine.state.dead_players ∧
      ((ok_result (next_phase c9_engine) c9_engine).state.phase = GamePhase.GameOver ∨
        (ok_result (next_phase c9_engine) c9_engine).state.phase = GamePhase.Night) ∧
      (check_win_condition (alive_werewolves c9_engine) (alive_villagers c9_engine) = none →
        (ok_result (next_phase c9_engine) c9_engine).state.phase = GamePhase.Night ∧
        (ok_result (next_phase c9_engine) c9_engine).state.winner = c9_engine.state.winner ∧
        (ok_result (next_phase c9_engine) c9_engine).state.day = c9_engine.state.day + 1 ∧
        (ok_result (next_phase c9_engine) c9_engine).state.votes = [])) :=
  ⟨(voting_no_votes_frame c9_engine rfl rfl).1,
   (voting_no_votes_frame c9_engine rfl rfl).2
     (ok_result (next_phase c9_engine) c9_engine) rfl⟩

/-- The three scalar scores of a belief node lie in [0, 1]. -/
def node_scores_bounded (n : BayesianNode) : Prop :=
  0 ≤ n.suspicion_score ∧ n.suspicion_score ≤ 1 ∧
  0 ≤ n.trust_score ∧ n.trust_score ≤ 1 ∧
  0 ≤ n.faction_probability ∧ n.faction_probability ≤ 1

/-- Every node of a reasoning engine has its scores in [0, 1]. -/
def engine_scores_bounded (re : ReasoningEngine) : Prop :=
  ∀ n ∈ re.nodes, node_scores_bounded n

/-- `clamp01` lands in [0, 1]. -/
theorem clamp01_bounds (x : ℚ) : 0 ≤ clamp01 x ∧ clamp01 x ≤ 1 := by
  unfold clamp01
  split_ifs <;> constructor <;> linarith

/-- The update of `update_probabilities` always leaves the three scalars
in [0, 1] (they are all clamped at the end). -/
theorem update_probabilities_node_bounded (n : BayesianNode) (ev : Evidence) :
    node_scores_bounded (update_probabilities_node n ev) :=
  ⟨(clamp01_bounds _).1, (clamp01_bounds _).2, (clamp01_bounds _).1, (clamp01_bounds _).2,
   (clamp01_bounds _).1, (clamp01_bounds _).2⟩

/-- `add_evidence` preserves boundedness of all nodes. -/
theorem add_evidence_bounded (re : ReasoningEngine) (pid : String) (ev : Evidence)
    (h : engine_scores_bounded re) : engine_scores_bounded (add_evidence re pid ev) := by
  intro n hn
  unfold add_evidence at hn
  simp only [List.mem_map] at hn
  obtain ⟨m, hm, hmn⟩ := hn
  by_cases hid : m.player_id = pid
  · rw [if_pos hid] at hmn
    exact hmn ▸ update_probabilities_node_bounded _ _
  · rw [if_neg hid] at hmn
    exact hmn ▸ h m hm

/-- `List.lookup` through the probability-scaling map of `initialize`. -/
theorem lookup_map_div (l : List (RoleType × ℕ)) (k : RoleType) (t : ℚ) :
    (l.map (fun rc => (rc.1, (rc.2 : ℚ) / t))).lookup k =
      (l.lookup k).map (fun c => (c : ℚ) / t) := by
  induction l with
  | nil => rfl
  | cons hd tl ih =>
      obtain ⟨k', v⟩ := hd
      by_cases hk : k = k'
      · subst hk
        simp [List.lookup]
      · simp [List.lookup, hk, ih, beq_false_of_ne hk]

/-- The nodes seeded by `ReasoningEngine::initialize` are bounded as long
as the advertised werewolf count does not exceed the roster size. -/
theorem initialize_bounded (gs : GameState)
    (hdist : ∀ c, gs.game_config.role_distribution.lookup RoleType.Werewolf = some c →
      c ≤ gs.players.length) :
    engine_scores_bounded (initialize_reasoning gs) := by
  intro n hn
  unfold initialize_reasoning at hn
  simp only [List.mem_map] at hn
  obtain ⟨p, hp, hpn⟩ := hn
  have hlen : 1 ≤ gs.players.length := List.length_pos.mpr (List.ne_nil_of_mem hp)
  subst hpn
  have hfp : (initialize_node gs p).faction_probability =
      (match gs.game_config.role_distribution.lookup RoleType.Werewolf with
       | some c => (c : ℚ) / (gs.players.length : ℚ)
       | none => 0) := by
    unfold initialize_node
    dsimp only
    rw [lookup_map_div]
    rcases gs.game_config.role_distribution.lookup RoleType.Werewolf with _ | c <;> rfl
  unfold node_scores_bounded
  refine ⟨by norm_num [initialize_node], by norm_num [initialize_node],
    by norm_num [initialize_node], by norm_num [initialize_node], ?_, ?_⟩ <;>
    · rw [hfp]
      rcases hl : gs.game_config.role_distribution.lookup RoleType.Werewolf with _ | c
      · simp
      · have hc := hdist c hl
        have ht : (0 : ℚ) < gs.players.length := by exact_mod_cast hlen
        dsimp only
        first
          | positivity
          | (rw [div_le_one ht]; exact_mod_cast hc)

/-- C3: starting from `initialize` (trust = suspicion = 0.5, faction
probability taken from the public role distribution), after any finite
sequence of `add_evidence` calls with arbitrary evidence, every node's
suspicion, trust and faction-probability scores lie in [0, 1]. -/
theorem scores_stay_in_unit_interval (gs : GameState)
    (hdist : ∀ c, gs.game_config.role_distribution.lookup RoleType.Werewolf = some c →
      c ≤ gs.players.length)
    (evs : List (String × Evidence)) :
    engine_scores_bounded (evs.foldl (fun re pe => add_evidence re pe.1 pe.2)
      (initialize_reasoning gs)) := by
  have haux : ∀ (l : List (String × Evidence)) (re : ReasoningEngine),
      engine_scores_bounded re →
      engine_scores_bounded (l.foldl (fun re pe => add_evidence re pe.1 pe.2) re) := by
    intro l
    induction l with
    | nil => intro re h; exact h
    | cons pe rest ih =>
        intro re h
        exact ih _ (add_evidence_bounded re pe.1 pe.2 h)
  exact haux evs _ (initialize_bounded gs hdist)

/-- A one-werewolf, two-villager state whose config advertises the
distribution of its own roster. -/
def c3_state : GameState :=
  { sample_state GamePhase.Night
      [sample_player "p1" RoleType.Werewolf, sample_player "p2" RoleType.Villager,
       sample_player "p3" RoleType.Villager] [] with
    game_config :=
      { total_players := 3
        role_distribution := [(RoleType.Werewolf, 1), (RoleType.Villager, 2)]
        discussion_time := 0
        voting_time := 0
        enable_voice := false } }

/-- An adversarial high-weight evidence record. -/
def c3_heavy_evidence : Evidence :=
  { evidence_type := EvidenceType.LogicalInconsistency
    confidence := 1
    source := "test"
    description := "test"
    weight := 100 }

/-- Witness for `scores_stay_in_unit_interval`: repeated high-weight
evidence against one player of a concrete three-player game. -/
theorem scores_stay_in_unit_interval_witness :
    engine_scores_bounded
      (([("p1", c3_heavy_evidence), ("p1", c3_heavy_evidence),
         ("p1", c3_heavy_evidence)].foldl (fun re pe => add_evidence re pe.1 pe.2)
        (initialize_reasoning c3_state))) :=
  scores_stay_in_unit_interval c3_state
    (by
      intro c hc
      rw [show c3_state.game_config.role_distribution.lookup RoleType.Werewolf = some 1
        from rfl] at hc
      injection hc with h
      show c ≤ 3
      omega)
    [("p1", c3_heavy_evidence), ("p1", c3_heavy_evidence), ("p1", c3_heavy_evidence)]

/-- Spec-claimed variant of the score update (from the spec sentence
"each evidence type has a fixed multiplier applied to
`weight * confidence`, added to suspicion, trust, or faction-probability;
all three clamped after update"): identical to the source update except
that each multiplier scales `weight * confidence` instead of `weight`. -/
def update_probabilities_node_claim (node : BayesianNode) (evidence : Evidence) :
    BayesianNode :=
  let node := match evidence.evidence_type with
    | EvidenceType.SpeechAnalysis =>
        if evidence.confidence > 0.7 then
          { node with
            suspicion_score :=
              node.suspicion_score + evidence.weight * evidence.confidence * 0.2
            trust_score := node.trust_score - evidence.weight * evidence.confidence * 0.1 }
        else node
    | EvidenceType.VotingPattern =>
        { node with faction_probability :=
            node.faction_probability + evidence.weight * evidence.confidence * 0.15 }
    | EvidenceType.DefensiveBehavior =>
        { node with suspicion_score :=
            node.suspicion_score + evidence.weight * evidence.confidence * 0.25 }
    | EvidenceType.LogicalInconsistency =>
        { node with
          faction_probability :=
            node.faction_probability + evidence.weight * evidence.confidence * 0.3
          suspicion_score := node.suspicion_score + evidence.weight * evidence.confidence * 0.4 }
    | _ =>
        { node with suspicion_score :=
            node.suspicion_score + evidence.weight * evidence.confidence * 0.1 }
  { node with
    suspicion_score := clamp01 node.suspicion_score
    trust_score := clamp01 node.trust_score
    faction_probability := clamp01 node.faction_probability }

/-- A fresh node with neutral 0.5 scores. -/
def c7_node : BayesianNode :=
  { player_id := "p1"
    role_probabilities := []
    faction_probability := 0.5
    trust_score := 0.5
    suspicion_score := 0.5
    evidence := [] }

/-- A voting-pattern evidence record with confidence 0.5 and weight 1. -/
def c7_evidence : Evidence :=
  { evidence_type := EvidenceType.VotingPattern
    confidence := 0.5
    source := "test"
    description := "test"
    weight := 1 }

/-- C7 counterexample: the source update applies the multiplier to the
weight alone (0.5 + 1·0.15 = 0.65), not to `weight * confidence` as
claimed (which would give 0.5 + 1·0.5·0.15 = 0.575). -/
theorem update_multiplier_counterexample :
    (update_probabilities_node c7_node c7_evidence).faction_probability = 0.65 ∧
    (update_probabilities_node_claim c7_node c7_evidence).faction_probability = 0.575 ∧
    (update_probabilities_node c7_node c7_evidence).faction_probability ≠
      (update_probabilities_node_claim c7_node c7_evidence).faction_probability := by
  refine ⟨?_, ?_, ?_⟩ <;> norm_num [update_probabilities_node, update_probabilities_node_claim,
    c7_node, c7_evidence, clamp01]

/-- The fixed suspicion-score multiplier per evidence type. -/
def suspicion_multiplier : EvidenceType → ℚ
  | EvidenceType.VotingPattern => 0
  | EvidenceType.SpeechAnalysis => 0.2
  | EvidenceType.NightResult => 0.1
  | EvidenceType.RoleClaimConsistency => 0.1
  | EvidenceType.DefensiveBehavior => 0.25
  | EvidenceType.AggressiveBehavior => 0.1
  | EvidenceType.LogicalInconsistency => 0.4
  | EvidenceType.TeamworkIndicator => 0.1

/-- The fixed trust-score multiplier per evidence type. -/
def trust_multiplier : EvidenceType → ℚ
  | EvidenceType.SpeechAnalysis => -0.1
  | _ => 0

/-- The fixed faction-probability multiplier per evidence type. -/
def faction_multiplier : EvidenceType → ℚ
  | EvidenceType.VotingPattern => 0.15
  | EvidenceType.LogicalInconsistency => 0.3
  | _ => 0

/-- Whether the evidence's deltas apply at all: speech-analysis evidence
is gated on confidence > 0.7, every other type always applies. -/
def evidence_applies (evidence : Evidence) : Bool :=
  match evidence.evidence_type with
  | EvidenceType.SpeechAnalysis => evidence.confidence > 0.7
  | _ => true

/-- The amended claim's table-driven update: each scalar receives its
fixed per-evidence-type multiplier times `weight` alone (confidence only
gates speech-analysis evidence), then all three scalars are clamped. -/
def update_probabilities_node_amended (node : BayesianNode) (evidence : Evidence) :
    BayesianNode :=
  let node :=
    if evidence_applies evidence then
      { node with
        suspicion_score :=
          node.suspicion_score + evidence.weight * suspicion_multiplier evidence.evidence_type
        trust_score :=
          node.trust_score + evidence.weight * trust_multiplier evidence.evidence_type
        faction_probability :=
          node.faction_probability +
            evidence.weight * faction_multiplier evidence.evidence_type }
    else node
  { node with
    suspicion_score := clamp01 node.suspicion_score
    trust_score := clamp01 node.trust_score
    faction_probability := clamp01 node.faction_probability }

/-- C7 (amended): for every node and every evidence record, the source
update equals the table-driven update — a fixed per-evidence-type
multiplier applied to `weight` alone is added to each scalar (with
confidence only gating speech-analysis evidence) and all three scalars
are clamped to [0, 1] afterwards. -/
theorem update_multiplier_amended (node : BayesianNode) (evidence : Evidence) :
    update_probabilities_node node evidence =
      update_probabilities_node_amended node evidence := by
  obtain ⟨pid, rp, fp, ts, ss, evl⟩ := node
  obtain ⟨et, conf, src, desc, w⟩ := evidence
  cases et <;>
    simp only [update_probabilities_node, update_probabilities_node_amended,
      evidence_applies, suspicion_multiplier, trust_multiplier, faction_multiplier] <;>
    (simp only [BayesianNode.mk.injEq]; norm_num <;> ring_nf <;> simp)

/-- `max_by` over the node map is `none` exactly on an empty map. -/
theorem max_node_by_none_iff (f : BayesianNode → ℚ) (nodes : List BayesianNode) :
    max_node_by f nodes = none ↔ nodes = [] := by
  cases nodes <;> simp [max_node_by]

/-- If there is no most-suspicious player, the node map is empty and
there is no most-trusted player either. -/
theorem most_suspicious_none_trusted_none (re : ReasoningEngine)
    (h : get_most_suspicious_player re = none) : get_most_trusted_player re = none := by
  unfold get_most_suspicious_player at h
  have hn : re.nodes = [] := by
    rcases hmn : max_node_by (fun n => n.suspicion_score) re.nodes with _ | m
    · exact (max_node_by_none_iff _ _).mp hmn
    · rw [hmn] at h
      cases h
  unfold get_most_trusted_player
  rw [hn]
  rfl

/-- C8: under `VotingStrategy::Protective`, whatever the game state, the
belief state and the rng draw of the random fallback, `decide_vote_target`
never returns the most-trusted player's id unless that id is also the
most-suspicious player's. -/
theorem protective_never_votes_most_trusted (se : StrategyEngine)
    (hstrat : se.current_strategy.voting_strategy = VotingStrategy.Protective)
    (gs : GameState) (re : ReasoningEngine) (k : ℕ) (x : String)
    (hres : decide_vote_target se gs re k = Except.ok (some x))
    (htrusted : get_most_trusted_player re = some x) :
    get_most_suspicious_player re = some x := by
  unfold decide_vote_target at hres
  rw [hstrat] at hres
  by_cases hae : (alive_others gs).isEmpty
  · rw [if_pos hae] at hres
    injection hres with h
    cases h
  · rw [if_neg hae] at hres
    dsimp only at hres
    rcases hs : get_most_suspicious_player re with _ | s
    · rw [most_suspicious_none_trusted_none re hs] at htrusted
      cases htrusted
    · rw [hs] at hres
      dsimp only at hres
      by_cases hg : some s ≠ get_most_trusted_player re
      · rw [if_pos hg] at hres
        have hsx : s = x := by
          injection hres with h
          injection h with h
          try exact h
        subst hsx
        exact absurd htrusted.symm hg
      · rw [not_ne_iff] at hg
        rw [htrusted] at hg
        injection hg with hg
        subst hg
        first
          | exact hs
          | rfl

/-- A one-node belief state in which player `p1` is simultaneously the
most trusted and the most suspicious. -/
def c8_re : ReasoningEngine :=
  { nodes := [{ player_id := "p1"
                role_probabilities := []
                faction_probability := 0.5
                trust_score := 0.9
                suspicion_score := 0.9
                evidence := [] }] }

/-- A strategy engine using the Protective voting strategy. -/
def c8_se : StrategyEngine :=
  { personality :=
      { id := "ai"
        name := "ai"
        description := "ai"
        traits := { aggressiveness := 0.5, logic := 0.5, deception := 0.5, trustfulness := 0.5 } }
    current_strategy :=
      { strategy_type := StrategyType.Defensive
        priority_targets := []
        avoid_targets := []
        speech_style := SpeechStyle.Concise
        voting_strategy := VotingStrategy.Protective
        deception_level := 0.5 } }

/-- A game state whose only live player is `p1`. -/
def c8_gs : GameState :=
  sample_state GamePhase.Voting [sample_player "p1" RoleType.Villager] []

/-- Witness for `protective_never_votes_most_trusted`: in a game where
the random fallback does return the most-trusted `p1`, that player is
indeed also the most suspicious. -/
theorem protective_never_votes_most_trusted_witness :
    get_most_suspicious_player c8_re = some "p1" :=
  protective_never_votes_most_trusted c8_se rfl c8_gs c8_re 0 "p1" rfl rfl

/-- C10: `update_strategy` adds exactly 0.1 to `deception_level` whenever
`day > 3`, leaves it unchanged otherwise, and applies no upper clamp:
starting from any documented (non-negative) level, more than ten late-game
calls drive the level strictly above 1.0. -/
theorem update_strategy_deception_unbounded (se : StrategyEngine) (gs : GameState)
    (re : ReasoningEngine) :
    (3 < gs.day →
      (update_strategy se gs re).current_strategy.deception_level =
        se.current_strategy.deception_level + 0.1) ∧
    (gs.day ≤ 3 →
      (update_strategy se gs re).current_strategy.deception_level =
        se.current_strategy.deception_level) ∧
    (3 < gs.day → 0 ≤ se.current_strategy.deception_level →
      ∀ n : ℕ, 10 < n →
        1 < ((fun s => update_strategy s gs re)^[n] se).current_strategy.deception_level) := by
  have hchar : ∀ s : StrategyEngine,
      (update_strategy s gs re).current_strategy.deception_level =
        if 3 < gs.day then s.current_strategy.deception_level + 0.1
        else s.current_strategy.deception_level := by
    intro s
    unfold update_strategy
    split_ifs with h <;> rfl
  refine ⟨?_, ?_, ?_⟩
  · intro h
    rw [hchar se, if_pos h]
  · intro h
    rw [hchar se, if_neg (by omega)]
  · intro h h0 n hn
    have hiter : ∀ (m : ℕ) (s : StrategyEngine),
        ((fun s => update_strategy s gs re)^[m] s).current_strategy.deception_level =
          s.current_strategy.deception_level + m * 0.1 := by
      intro m
      induction m with
      | zero => intro s; simp
      | succ m ih =>
          intro s
          rw [Function.iterate_succ_apply', hchar, if_pos h, ih]
          push_cast
          ring
    rw [hiter n se]
    have : (10 : ℚ) + 1 ≤ (n : ℚ) := by exact_mod_cast hn
    nlinarith

/-- A game state on day 4 (late game). -/
def c10_gs4 : GameState :=
  { sample_state GamePhase.Night [sample_player "p1" RoleType.Villager] [] with day := 4 }

/-- A game state on day 2 (early game). -/
def c10_gs2 : GameState :=
  { sample_state GamePhase.Night [sample_player "p1" RoleType.Villager] [] with day := 2 }

/-- Witness for `update_strategy_deception_unbounded` at concrete
strategy/game states: one late-game call adds 0.1, an early-game call
changes nothing, and eleven late-game calls exceed 1.0. -/
theorem update_strategy_deception_unbounded_witness :
    (update_strategy c8_se c10_gs4 c8_re).current_strategy.deception_level =
      c8_se.current_strategy.deception_level + 0.1 ∧
    (update_strategy c8_se c10_gs2 c8_re).current_strategy.deception_level =
      c8_se.current_strategy.deception_level ∧
    1 < ((fun s => update_strategy s c10_gs4 c8_re)^[11] c8_se).current_strategy.deception_level :=
  ⟨(update_strategy_deception_unbounded c8_se c10_gs4 c8_re).1 (by decide),
   (update_strategy_deception_unbounded c8_se c10_gs2 c8_re).2.1 (by decide),
   (update_strategy_deception_unbounded c8_se c10_gs4 c8_re).2.2 (by decide) (by norm_num [c8_se])
     11 (by decide)⟩

/-- The role-distribution table exactly as the claim states it, as a
multiset of role types per supported player count. -/
def claimed_role_table (n : ℕ) : Multiset RoleType :=
  if n = 6 then
    Multiset.ofList [RoleType.Werewolf, RoleType.Werewolf, RoleType.Villager,
      RoleType.Villager, RoleType.Seer, RoleType.Witch]
  else if n = 8 then
    Multiset.ofList [RoleType.Werewolf, RoleType.Werewolf, RoleType.Werewolf,
      RoleType.Villager, RoleType.Villager, RoleType.Villager, RoleType.Seer, RoleType.Witch]
  else if n = 10 then
    Multiset.ofList [RoleType.Werewolf, RoleType.Werewolf, RoleType.Werewolf,
      RoleType.Villager, RoleType.Villager, RoleType.Villager, RoleType.Villager,
      RoleType.Seer, RoleType.Witch, RoleType.Hunter]
  else if n = 12 then
    Multiset.ofList [RoleType.Werewolf, RoleType.Werewolf, RoleType.Werewolf,
      RoleType.Werewolf, RoleType.Villager, RoleType.Villager, RoleType.Villager,
      RoleType.Villager, RoleType.Seer, RoleType.Witch, RoleType.Hunter, RoleType.Guard]
  else 0

/-- The AI-player loop preserves the number of roles dealt. -/
theorem mk_ai_players_length (names : ℕ → String) (pers : ℕ → AIPersonality) (i : ℕ)
    (roles : List Role) : (mk_ai_players names pers i roles).length = roles.length := by
  induction roles generalizing i with
  | nil => rfl
  | cons r rs ih => simp [mk_ai_players, ih]

/-- The AI-player loop deals each remaining role, in order. -/
theorem mk_ai_players_map_role (names : ℕ → String) (pers : ℕ → AIPersonality) (i : ℕ)
    (roles : List Role) :
    (mk_ai_players names pers i roles).map (fun p => p.role.role_type) =
      roles.map (fun r => r.role_type) := by
  induction roles generalizing i with
  | nil => rfl
  | cons r rs ih => simp [mk_ai_players, mk_ai_player, ih]

/-- With a nonempty deck, `initialize_players` seats one player per role. -/
theorem initialize_players_length (roles : List Role) (h : roles ≠ [])
    (names : ℕ → String) (pers : ℕ → AIPersonality) :
    (initialize_players roles names pers).length = roles.length := by
  unfold initialize_players
  rw [List.getLast?_eq_getLast roles h]
  dsimp only
  rw [List.length_cons, mk_ai_players_length, List.length_dropLast]
  have := List.length_pos.mpr h
  omega

/-- With a nonempty deck, the seated players' role types are a
permutation of the deck's role types. -/
theorem initialize_players_roles_perm (roles : List Role) (h : roles ≠ [])
    (names : ℕ → String) (pers : ℕ → AIPersonality) :
    ((initialize_players roles names pers).map (fun p => p.role.role_type)).Perm
      (roles.map (fun r => r.role_type)) := by
  unfold initialize_players
  rw [List.getLast?_eq_getLast roles h]
  dsimp only
  rw [List.map_cons, mk_ai_players_map_role, List.map_dropLast]
  have hmr : roles.map (fun r => r.role_type) ≠ [] := by
    simpa using h
  have hx : (roles.map (fun r => r.role_type)).getLast hmr = (roles.getLast h).role_type := by
    rw [List.getLast_map]
  conv_rhs => rw [← List.dropLast_append_getLast hmr]
  rw [hx]
  exact (List.perm_append_singleton _ _).symm

/-- C6: for every supported player count (6, 8, 10 or 12) and every
permutation-respecting shuffle, `initialize_game` seats exactly
`total_players` players and their role-type multiset matches the fixed
distribution table for that count. -/
theorem initialize_game_role_table (total : ℕ)
    (htotal : total = 6 ∨ total = 8 ∨ total = 10 ∨ total = 12)
    (e : GameEngine) (hcfg : e.state.game_config.total_players = total)
    (shuffle : List Role → List Role) (hshuffle : ∀ l, (shuffle l).Perm l)
    (names : ℕ → String) (pers : ℕ → AIPersonality) (e2 : GameEngine)
    (he2 : initialize_game shuffle names pers e = Except.ok e2) :
    e2.state.players.length = total ∧
    Multiset.ofList (e2.state.players.map (fun p => p.role.role_type)) =
      claimed_role_table total := by
  unfold initialize_game at he2
  injection he2 with he2
  subst he2
  dsimp only
  rw [hcfg]
  have hperm : (shuffle (build_roles (generate_role_distribution total))).Perm
      (build_roles (generate_role_distribution total)) := hshuffle _
  have hlenb : (build_roles (generate_role_distribution total)).length = total := by
    rcases htotal with h | h | h | h <;> subst h <;> decide
  have htpos : 0 < total := by
    rcases htotal with h | h | h | h <;> subst h <;> decide
  have hne : shuffle (build_roles (generate_role_distribution total)) ≠ [] := by
    intro h0
    have hlen := hperm.length_eq
    rw [h0, hlenb] at hlen
    simp at hlen
    omega
  constructor
  · rw [initialize_players_length _ hne, hperm.length_eq, hlenb]
  · have hp1 := initialize_players_roles_perm _ hne names pers
    have hp2 := hperm.map (fun r => r.role_type)
    have hcoe : Multiset.ofList
        ((initialize_players (shuffle (build_roles (generate_role_distribution total)))
          names pers).map (fun p => p.role.role_type)) =
        Multiset.ofList ((build_roles (generate_role_distribution total)).map
          (fun r => r.role_type)) :=
      Multiset.coe_eq_coe.mpr (hp1.trans hp2)
    rw [hcoe]
    rcases htotal with h | h | h | h <;> subst h <;> decide

/-- A fresh engine configured for six players. -/
def c6_engine : GameEngine :=
  ok_result (GameEngine.new
    { total_players := 6
      role_distribution := []
      discussion_time := 0
      voting_time := 0
      enable_voice := false })
    { state := sample_state GamePhase.Preparation [] [], players_map := fun _ => none }

/-- A fixed AI personality for concrete initializations. -/
def sample_personality : AIPersonality :=
  { id := "ai"
    name := "ai"
    description := "ai"
    traits := { aggressiveness := 0.5, logic := 0.5, deception := 0.5, trustfulness := 0.5 } }

/-- Witness for `initialize_game_role_table`: a six-player game with the
identity shuffle seats six players matching the six-player table. -/
theorem initialize_game_role_table_witness :
    (ok_result (initialize_game (fun l => l) (fun _ => "ai") (fun _ => sample_personality)
        c6_engine) c6_engine).state.players.length = 6 ∧
    Multiset.ofList ((ok_result (initialize_game (fun l => l) (fun _ => "ai")
        (fun _ => sample_personality) c6_engine) c6_engine).state.players.map
      (fun p => p.role.role_type)) = claimed_role_table 6 :=
  initialize_game_role_table 6 (Or.inl rfl) c6_engine rfl (fun l => l)
    (fun l => List.Perm.refl l) (fun _ => "ai") (fun _ => sample_personality)
    (ok_result (initialize_game (fun l => l) (fun _ => "ai") (fun _ => sample_personality)
      c6_engine) c6_engine) rfl

/-- A fresh engine configured for zero players. -/
def c4_engine : GameEngine :=
  ok_result (GameEngine.new
    { total_players := 0
      role_distribution := []
      discussion_time := 0
      voting_time := 0
      enable_voice := false })
    { state := sample_state GamePhase.Preparation [] [], players_map := fun _ => none }

/-- C4 (code evaluated at the failing input): with `total_players = 0`,
`initialize_game` does not fail — the default distribution branch
computes `total_players - 2` on a `u8`, which wraps to 254 villagers in a
release build (and panics in a debug build), so initialization returns
`Ok` with a 256-player roster instead of the specified error. -/
theorem initialize_game_zero_players_succeeds :
    is_ok (initialize_game (fun l => l) (fun _ => "ai") (fun _ => sample_personality)
      c4_engine) = true ∧
    is_game_logic_error (initialize_game (fun l => l) (fun _ => "ai")
      (fun _ => sample_personality) c4_engine) = false ∧
    (ok_result (initialize_game (fun l => l) (fun _ => "ai") (fun _ => sample_personality)
        c4_engine) c4_engine).state.players.length = 256 := by
  refine ⟨rfl, rfl, ?_⟩
  set_option maxRecDepth 4096 in rfl

/-- The auxiliary id→index map agrees with the live roster. -/
def map_consistent (e : GameEngine) : Prop :=
  ∀ (i : ℕ) (h : i < e.state.players.length),
    e.players_map (e.state.players[i].id) = some i

/-- C5: eliminating a live player (in a state whose id→index map is
consistent, whose live ids are distinct and disjoint from the dead ids)
removes exactly that player from the live roster, adds it exactly once
to `dead_players` with `is_alive = false`, preserves every other
player's record, and keeps the id→index map consistent. -/
theorem eliminate_player_postconditions (e : GameEngine) (pid : String)
    (hmap : map_consistent e)
    (hnodup : (e.state.players.map (fun p => p.id)).Nodup)
    (hmem : pid ∈ e.state.players.map (fun p => p.id))
    (hdead : pid ∉ e.state.dead_players.map (fun p => p.id)) :
    pid ∉ (eliminate_player e pid).state.players.map (fun p => p.id) ∧
    ((eliminate_player e pid).state.dead_players.filter (fun p => p.id = pid)).length = 1 ∧
    (∀ p ∈ (eliminate_player e pid).state.dead_players, p.id = pid → p.is_alive = false) ∧
    (∀ q, q ∈ (eliminate_player e pid).state.players ↔
      q ∈ e.state.players ∧ q.id ≠ pid) ∧
    (∀ p ∈ e.state.dead_players, p ∈ (eliminate_player e pid).state.dead_players) ∧
    map_consistent (eliminate_player e pid) := by
  obtain ⟨p, hp, hpid⟩ := List.mem_map.mp hmem
  obtain ⟨j, hj, hpj⟩ := List.getElem_of_mem hp
  have hjid : e.state.players[j].id = pid := by rw [hpj, hpid]
  have hpm : e.players_map pid = some j := by
    have := hmap j hj
    rwa [hjid] at this
  have hidne : ∀ (i : ℕ) (hi : i < e.state.players.length), i ≠ j →
      e.state.players[i].id ≠ pid := by
    intro i hi hij hcon
    have him : i < (e.state.players.map (fun p => p.id)).length := by
      rw [List.length_map]
      exact hi
    have hjm : j < (e.state.players.map (fun p => p.id)).length := by
      rw [List.length_map]
      exact hj
    have hgm : (e.state.players.map (fun p => p.id))[i] =
        (e.state.players.map (fun p => p.id))[j] := by
      rw [List.getElem_map, List.getElem_map]
      rw [hcon, hjid]
    exact hij ((@List.Nodup.getElem_inj_iff _ _ hnodup i him j hjm).mp hgm)
  have he : eliminate_player e pid =
      { state := { e.state with
          players := e.state.players.eraseIdx j
          dead_players := e.state.dead_players ++
            [{ e.state.players[j] with is_alive := false }] }
        players_map := fun k =>
          if k = pid then none
          else (e.players_map k).map (fun idx => if j < idx then idx - 1 else idx) } := by
    unfold eliminate_player
    rw [hpm]
    dsimp only
    rw [List.get?_eq_get hj]
    rfl
  rw [he]
  refine ⟨?_, ?_, ?_, ?_, ?_, ?_⟩
  · intro hmem'
    obtain ⟨q, hq, hqid⟩ := List.mem_map.mp hmem'
    obtain ⟨i, hi, hij, hiq⟩ := List.mem_eraseIdx_iff_getElem.mp hq
    exact hidne i hi hij (by rw [hiq, hqid])
  · rw [List.filter_append]
    have h0 : e.state.dead_players.filter (fun p => p.id = pid) = [] := by
      refine List.filter_eq_nil_iff.mpr ?_
      intro a ha haid
      simp only [decide_eq_true_eq] at haid
      exact hdead (List.mem_map.mpr ⟨a, ha, haid⟩)
    rw [h0]
    simp [hjid]
  · intro q hq hqid
    rcases List.mem_append.mp hq with hq | hq
    · exact absurd (List.mem_map.mpr ⟨q, hq, hqid⟩) hdead
    · rw [List.mem_singleton] at hq
      subst hq
      rfl
  · intro q
    constructor
    · intro hq
      obtain ⟨i, hi, hij, hiq⟩ := List.mem_eraseIdx_iff_getElem.mp hq
      refine ⟨hiq ▸ List.getElem_mem hi, ?_⟩
      intro hqid
      exact hidne i hi hij (by rw [hiq, hqid])
    · rintro ⟨hq, hqid⟩
      obtain ⟨i, hi, hiq⟩ := List.getElem_of_mem hq
      have hij : i ≠ j := by
        intro hh
        subst hh
        exact hqid (by rw [← hiq, hjid])
      exact List.mem_eraseIdx_iff_getElem.mpr ⟨i, hi, hij, hiq⟩
  · intro q hq
    exact List.mem_append.mpr (Or.inl hq)
  · intro i hi
    have hlen : (e.state.players.eraseIdx j).length = e.state.players.length - 1 := by
      rw [List.length_eraseIdx, if_pos hj]
    have hi' : i < (e.state.players.eraseIdx j).length := hi
    by_cases hij : i < j
    · have hilt : i < e.state.players.length := lt_trans hij hj
      have hget : (e.state.players.eraseIdx j)[i] = e.state.players[i] :=
        List.getElem_eraseIdx_of_lt _ _ _ hi' hij
      show (if (e.state.players.eraseIdx j)[i].id = pid then none
          else (e.players_map ((e.state.players.eraseIdx j)[i].id)).map
            (fun idx => if j < idx then idx - 1 else idx)) = some i
      rw [hget, if_neg (hidne i hilt (by omega)), hmap i hilt]
      simp only [Option.map_some']
      rw [if_neg (by omega)]
    · have hisucc : i + 1 < e.state.players.length := by omega
      have hget : (e.state.players.eraseIdx j)[i] = e.state.players[i + 1] :=
        List.getElem_eraseIdx_of_ge _ _ _ hi' (by omega)
      show (if (e.state.players.eraseIdx j)[i].id = pid then none
          else (e.players_map ((e.state.players.eraseIdx j)[i].id)).map
            (fun idx => if j < idx then idx - 1 else idx)) = some i
      rw [hget, if_neg (hidne (i + 1) hisucc (by omega)), hmap (i + 1) hisucc]
      simp only [Option.map_some']
      rw [if_pos (by omega)]
      exact congrArg some (by omega)

/-- A consistent three-player engine for the elimination witness. -/
def c5_engine : GameEngine :=
  { state := sample_state GamePhase.Night
      [sample_player "a" RoleType.Werewolf, sample_player "b" RoleType.Seer,
       sample_player "c" RoleType.Villager] []
    players_map := fun k => if k = "a" then some 0 else if k = "b" then some 1
      else if k = "c" then some 2 else none }

/-- Witness for `eliminate_player_postconditions`: eliminating the middle
player `b` of a concrete three-player roster. -/
theorem eliminate_player_postconditions_witness :
    "b" ∉ (eliminate_player c5_engine "b").state.players.map (fun p => p.id) ∧
    ((eliminate_player c5_engine "b").state.dead_players.filter
      (fun p => p.id = "b")).length = 1 ∧
    (∀ p ∈ (eliminate_player c5_engine "b").state.dead_players,
      p.id = "b" → p.is_alive = false) ∧
    (∀ q, q ∈ (eliminate_player c5_engine "b").state.players ↔
      q ∈ c5_engine.state.players ∧ q.id ≠ "b") ∧
    (∀ p ∈ c5_engine.state.dead_players,
      p ∈ (eliminate_player c5_engine "b").state.dead_players) ∧
    map_consistent (eliminate_player c5_engine "b") :=
  eliminate_player_postconditions c5_engine "b"
    (by
      intro i h
      have h3 : i < 3 := h
      interval_cases i <;> rfl)
    (by decide) (by decide) (by decide)

end MindWolf
